import Mathlib

set_option maxRecDepth 8000
set_option linter.unusedVariables false

namespace PythonMccdaq

/-!
Shallow embedding of the configuration-resolution and scan-orchestration
layer of `python_mccdaq` (files `daq_linux.py` and `daq_windows.py`).

Python values are modelled as follows: machine floats used for voltages are
modelled as `Rat` (the code only ever compares them with `==`), fallible
Python code returns `Except DaqError`, and the vendor backend is modelled as
explicit inputs (a mock): whether `a_in_scan`/`startScan` succeeds, the
stream of poll responses, and the buffer contents the hardware writes.
Backend side effects that the claims talk about (buffer allocate/free,
start, stop) are recorded in an explicit event trace.
-/

/-- Errors raised by the Python code.  `keyError k` is Python's
`KeyError(k)` (it names the offending key), `typeError` is the `TypeError`
raised when a non-callable mapping is called, `attributeError` is raised by
`.upper()` on a non-string, `unboundLocal` is `UnboundLocalError`, and
`backendError` stands for an error raised by the native driver.
`outOfFuel` is a modelling artifact only: it marks that the polling loop
was still running when the supplied fuel ran out. -/
inductive DaqError where
  | runtimeError (msg : String)
  | valueError (msg : String)
  | exception (msg : String)
  | keyError (k : String)
  | typeError
  | attributeError
  | unboundLocal
  | backendError
  | outOfFuel
deriving DecidableEq, Repr

/-- One entry of the backend range table `enums.ULRange`: an enum member
with its `name` and its `range_max` voltage. -/
structure RangeDesc where
  name : String
  range_max : Rat
deriving DecidableEq, Repr

/-- Python `str.upper()` (all strings involved are ASCII).  Defined over
the string's character list so that it reduces in the kernel —
`String.toUpper`, whose `mapAux` recursion does not reduce, is
extensionally the same function. -/
def pyUpper (s : String) : String := ⟨s.data.map Char.toUpper⟩

/-- Python `name.startswith(polarity.upper()[0:2])`, over character
lists. -/
def startsWithTag (name : String) (polarity : String) : Bool :=
  List.isPrefixOf ((pyUpper polarity).data.take 2) name.data

/-- The loop body of `DAQ.look_up_range` (daq_linux.py 90-98) and
`DAQ.lookUpRange` (daq_windows.py 137-145): iterate over the table; on the
first entry whose `name` starts with the first two characters of the
uppercased polarity and whose `range_max` equals `rang`, set the result and
break; entries matching only the polarity prefix are skipped. -/
def lookUpRangeLoop (rang : Rat) (polarity : String) : List RangeDesc → Option RangeDesc
  | [] => none
  | ulr :: rest =>
    if startsWithTag ulr.name polarity then
      if ulr.range_max = rang then some ulr
      else lookUpRangeLoop rang polarity rest
    else lookUpRangeLoop rang polarity rest

/-- Embedding of `DAQ.look_up_range(rang, polarity)` / `DAQ.lookUpRange`: `ulout` starts
as `None` and is only ever assigned immediately before `break`, so the
function returns the first match or `None`.  It is a total function: it
never raises. -/
def lookUpRange (table : List RangeDesc) (rang : Rat) (polarity : String) : Option RangeDesc :=
  lookUpRangeLoop rang polarity table

/-- The matching predicate of the spec for `resolveRange`: polarity tag
prefix-equal (first two characters of the uppercased request) and exact
equality of the maximum voltage.  Used to state the first-match property. -/
def rangeMatches (rang : Rat) (polarity : String) (r : RangeDesc) : Bool :=
  startsWithTag r.name polarity && decide (r.range_max = rang)

/-- Embedding of `DAQ.AIn(channel)` (daq_linux.py 275-284 and, identically,
daq_windows.py 315-325).  `connected` models `self.daq_device is not None`,
`number_of_channels` is the cached AI channel count, and `backend` models
the one-sample read (`ai_device.a_in` / `v_in`), which is only invoked when
all validation passes. -/
def AIn (connected : Bool) (number_of_channels : Int) (backend : Int → Rat)
    (channel : Int) : Except DaqError Rat :=
  if connected = false then
    .error (.runtimeError "DAQ device is not connected")
  else if channel > number_of_channels then
    .error (.valueError "channel index requested is higher than number of channels")
  else if channel < 0 then
    .error (.valueError "channel index must be 0 or positive")
  else
    .ok (backend channel)

/-- Channel clamping of `DAQ.AInScan` in daq_linux.py 309-313: only the
high channel is clamped; a negative `low_channel` is passed through.
Returns `(low_channel, high_channel, channel_count)` after the clamp. -/
def linuxScanParams (noc low high : Int) : Int × Int × Int :=
  let high2 := if high ≥ noc then noc - 1 else high
  (low, high2, high2 - low + 1)

/-- Channel clamping of `DAQ.AInScan` in daq_windows.py 370-377: the high
channel is clamped to `number_of_channels - 1`, then a negative low channel
is clamped to `0`.  Returns `(low_channel, high_channel, channel_count)`. -/
def windowsScanParams (noc low high : Int) : Int × Int × Int :=
  let high2 := if high ≥ noc then noc - 1 else high
  let low2 := if low < 0 then 0 else low
  (low2, high2, high2 - low2 + 1)

/-- Backend scan status, `uldaq.ScanStatus` / `mcculw.enums.Status`. -/
inductive ScanStatus where
  | running
  | idle
deriving DecidableEq, Repr

/-- The transfer-status record returned by a status poll
(`current_scan_count`, `current_index`). -/
structure TransferStatus where
  current_scan_count : Nat
  current_index : Nat
deriving DecidableEq, Repr

/-- One backend response to a status poll: either a status record or a
raised backend error (`raiseExc`). -/
inductive PollEvent where
  | ok (status : ScanStatus) (ts : TransferStatus)
  | raiseExc
deriving DecidableEq, Repr

/-- Backend side effects recorded by the scan orchestration: buffer
allocation (`create_float_buffer` / `scaled_win_buf_alloc`), the start-scan
call (`a_in_scan`), the stop call (`scan_stop` / `stop_background`) and the
buffer release (`win_buf_free`; the Linux variant has no release call). -/
inductive BEvent where
  | bufAlloc
  | startScan
  | stop
  | bufFree
deriving DecidableEq, Repr

/-- The mock backend and cached device state a scan call runs against:
`connected` is the truthiness of `self.daq_device`, `hasPacer` is
`AiInfo.has_pacer()` / `AiInfo.supports_scan`, `noc` the cached
`number_of_channels`, `startOk` whether the backend start-scan call
succeeds, `polls` the stream of status-poll responses, `buf` the raw
sample the hardware deposits at each buffer index, and `sleepT` the
configured `sleep_time` in abstract time units (each `sleep` advances the
clock by `sleepT`; polls themselves are instantaneous in the model). -/
structure ScanEnv where
  connected : Bool
  hasPacer : Bool
  noc : Int
  startOk : Bool
  polls : Nat → PollEvent
  buf : Nat → Rat
  sleepT : Nat

/-- Exit of the Linux polling loop.  Each constructor carries the last
value bound to the Python local `status` (`none` = never assigned, i.e.
referencing it raises `UnboundLocalError`).  `noFuel` is the modelling
artifact for "still looping when the fuel ran out". -/
inductive LinuxExit where
  | done (last : ScanStatus)
  | timeout (last : Option ScanStatus)
  | exc (last : Option ScanStatus)
  | noFuel
deriving DecidableEq, Repr

/-- The polling loop of `DAQ.AInScan` in daq_linux.py 329-338:
`while (time.time() - start_time) <= scan_time:` poll the status, break
when `current_scan_count >= samples_per_channel`, else `sleep(sleep_time)`.
`k` counts completed sleeps, so elapsed time at the top of iteration `k` is
`k * sleepT`; `last` is the last value assigned to `status`. -/
def linuxLoop (polls : Nat → PollEvent) (sleepT scanT spc : Nat) :
    Nat → Nat → Option ScanStatus → LinuxExit
  | 0, _, _ => .noFuel
  | fuel + 1, k, last =>
    if k * sleepT > scanT then .timeout last
    else
      match polls k with
      | .raiseExc => .exc last
      | .ok s ts =>
        if ts.current_scan_count ≥ spc then .done s
        else linuxLoop polls sleepT scanT spc fuel (k + 1) (some s)

/-- The last value bound to the Python local `status` at loop exit, read
by the `finally` block of the Linux variant. -/
def lastKnown : LinuxExit → Option ScanStatus
  | .done s => some s
  | .timeout l => l
  | .exc l => l
  | .noFuel => none

/-- The `finally` block of daq_linux.py 339-343: if `self.daq_device` is
truthy, compare `status == ScanStatus.RUNNING` and stop the scan if it is.
Returns whether `scan_stop` was invoked, and the error the block itself
raises: comparing a never-assigned `status` raises `UnboundLocalError`
(which, raised inside `finally`, replaces any in-flight exception). -/
def linuxFinally (connected : Bool) (last : Option ScanStatus) : Bool × Option DaqError :=
  if connected then
    match last with
    | none => (false, some .unboundLocal)
    | some s => if s = .running then (true, none) else (false, none)
  else (false, none)

/-- Row-major reshape of a flat buffer into `spc` rows of `cc` columns,
modelling `np.array(...).reshape((samples_per_channel, channel_count))`.
All call sites pass a list of length exactly `spc * cc`, so the `getD`
default is never hit there. -/
def reshape (l : List Rat) (spc cc : Nat) : List (List Rat) :=
  (List.range spc).map (fun r => (List.range cc).map (fun c => l.getD (r * cc + c) 0))

/-- Embedding of `DAQ.AInScan` of daq_linux.py 302-348: pacer check, high-channel clamp
(`linuxScanParams`), buffer allocation, `try` (start the acquisition, run
the polling loop with `scan_time` defaulting to `500000`), `finally`
(`linuxFinally`), then reshape and return.  On a failed start or a poll
that raised, the original backend error propagates unless the `finally`
block itself raised `UnboundLocalError`.  A `timeout` exit is not an
error: the partial buffer is reshaped and returned. -/
def linuxAInScan (env : ScanEnv) (low high : Int) (rate : Nat) (spc : Nat)
    (scan_time : Option Nat) (fuel : Nat) :
    List BEvent × Except DaqError (List (List Rat)) :=
  if env.hasPacer = false then
    ([], .error (.exception "Error: The specified DAQ device does not support hardware paced analog input"))
  else
    let cc := (linuxScanParams env.noc low high).2.2.toNat
    if env.startOk = false then
      let f := linuxFinally env.connected none
      ([.bufAlloc, .startScan] ++ (if f.1 then [BEvent.stop] else []),
       .error (f.2.getD .backendError))
    else
      match linuxLoop env.polls env.sleepT (scan_time.getD 500000) spc fuel 0 none with
      | .noFuel => ([.bufAlloc, .startScan], .error .outOfFuel)
      | .done s =>
        let f := linuxFinally env.connected (some s)
        ([.bufAlloc, .startScan] ++ (if f.1 then [BEvent.stop] else []),
         match f.2 with
         | some e => .error e
         | none => .ok (reshape ((List.range (spc * cc)).map env.buf) spc cc))
      | .timeout l =>
        let f := linuxFinally env.connected l
        ([.bufAlloc, .startScan] ++ (if f.1 then [BEvent.stop] else []),
         match f.2 with
         | some e => .error e
         | none => .ok (reshape ((List.range (spc * cc)).map env.buf) spc cc))
      | .exc l =>
        let f := linuxFinally env.connected l
        ([.bufAlloc, .startScan] ++ (if f.1 then [BEvent.stop] else []),
         .error (f.2.getD .backendError))

/-- Exit of the Windows polling loop (daq_windows.py 391-402). -/
inductive WinExit where
  | idleFirst
  | idleLater
  | countDone
  | exc
  | noFuel
deriving DecidableEq, Repr

/-- Body iterations of the Windows loop: `sleep`, poll, break when
`curr_count >= total_count`, then re-test `status != Status.IDLE`.  `k` is
the index of the next poll (poll `0` is the initial `get_status` before
the loop). -/
def winLoopAux (polls : Nat → PollEvent) (total : Nat) : Nat → Nat → WinExit
  | 0, _ => .noFuel
  | fuel + 1, k =>
    match polls k with
    | .raiseExc => .exc
    | .ok s ts =>
      if ts.current_scan_count ≥ total then .countDone
      else if s = .idle then .idleLater
      else winLoopAux polls total fuel (k + 1)

/-- The Windows polling structure: one initial `get_status` (poll `0`,
whose count is not checked), then `while status != Status.IDLE` body
iterations.  Note there is no time-based exit: `scan_time` is not
consulted anywhere in the Windows loop. -/
def winLoop (polls : Nat → PollEvent) (total : Nat) (fuel : Nat) : WinExit :=
  match polls 0 with
  | .raiseExc => .exc
  | .ok s _ => if s = .idle then .idleFirst else winLoopAux polls total fuel 1

/-- Embedding of `DAQ.AInScan` of daq_windows.py 363-415: scan-support check, channel
clamping (`windowsScanParams`), buffer allocation of
`total_count = samples_per_channel * channel_count`, `try` (start, poll
loop), `finally` (`stop_background` unconditionally), then on the normal
path read the buffer, reshape, `win_buf_free`, and return.  The `scan_time`
parameter is accepted but never read.  `win_buf_free` is only reached on
the normal path: an exception propagates after `stop_background` without
freeing the buffer. -/
def windowsAInScan (env : ScanEnv) (low high : Int) (rate : Nat) (spc : Nat)
    (scan_time : Option Nat) (fuel : Nat) :
    List BEvent × Except DaqError (List (List Rat)) :=
  if env.hasPacer = false then
    ([], .error (.exception "Error: The specified DAQ device does not support scanning analog inputs"))
  else
    let cc := (windowsScanParams env.noc low high).2.2.toNat
    let total := spc * cc
    if env.startOk = false then
      ([.bufAlloc, .startScan, .stop], .error .backendError)
    else
      match winLoop env.polls total fuel with
      | .noFuel => ([.bufAlloc, .startScan], .error .outOfFuel)
      | .exc => ([.bufAlloc, .startScan, .stop], .error .backendError)
      | _ => ([.bufAlloc, .startScan, .stop, .bufFree],
              .ok (reshape ((List.range total).map env.buf) spc cc))

/-- Number of backend stop-scan invocations recorded by a scan call. -/
def stopCount (r : List BEvent × Except DaqError (List (List Rat))) : Nat :=
  r.1.count BEvent.stop

/-- Number of buffer releases recorded by a scan call. -/
def freeCount (r : List BEvent × Except DaqError (List (List Rat))) : Nat :=
  r.1.count BEvent.bufFree

/-- A value stored in the merged configuration mapping: the recognized
keys hold either a number (voltages, board index, poll interval) or a
string (mode, polarity, port names). -/
inductive ConfigVal where
  | num (q : Rat)
  | str (s : String)
deriving DecidableEq, Repr

/-- The merged configuration produced by `hjsonconfig.merge`, viewed as a
mapping from key to value (`none` = key absent). -/
abbrev Config := String → Option ConfigVal

/-- Python `self.config[k]`: a dict lookup that raises `KeyError(k)` —
naming the offending key — when the key is absent. -/
def configGet (c : Config) (k : String) : Except DaqError ConfigVal :=
  match c k with
  | some v => .ok v
  | none => .error (.keyError k)

/-- Python `self.config(k)` as written in daq_linux.py line 84
(`self.sleep_time = self.config("sleep_time")`): the merged configuration
is a plain, non-callable mapping, so calling it raises `TypeError` before
the key is ever considered. -/
def configCall (c : Config) (k : String) : Except DaqError ConfigVal :=
  .error .typeError

/-- Python `v.upper()` applied to a configuration value: succeeds on a
string and raises `AttributeError` on a number. -/
def asStr : ConfigVal → Except DaqError String
  | .str s => .ok s
  | .num _ => .error .attributeError

/-- Embedding of `DAQ.look_up_mode` / `DAQ.lookUpMode`:
`enums.AnalogInputMode[mode.upper()]`, an enum lookup that raises
`KeyError` on an unknown name.  The enum member is modelled by its index
in the member table. -/
def lookUpMode (modeTable : List String) (mode : String) : Except DaqError Nat :=
  if modeTable.contains (pyUpper mode) then .ok (modeTable.indexOf (pyUpper mode))
  else .error (.keyError (pyUpper mode))

/-- Embedding of `DAQ.look_up_dio_port` / `DAQ.lookUpDioPort`:
`enums.DigitalPortType[port_name.upper()]`. -/
def lookUpDioPort (portTable : List String) (portName : String) : Except DaqError Nat :=
  if portTable.contains (pyUpper portName) then .ok (portTable.indexOf (pyUpper portName))
  else .error (.keyError (pyUpper portName))

/-- The function `look_up_range` applied to a raw configuration value: Python compares
`ulr.range_max == rang` with `==`, and a float never equals a string, so a
non-numeric value simply yields the `None` sentinel without raising. -/
def lookUpRangeVal (table : List RangeDesc) (v : ConfigVal) (polarity : String) :
    Option RangeDesc :=
  match v with
  | .num q => lookUpRange table q polarity
  | .str _ => none

/-- The resolved settings assigned by `_apply_config` / `_applyConfig`
before the poll-interval step: `ao_range`, `ai_mode`, `ai_range`,
`do_port`, `di_port`. -/
structure AppliedCommon where
  aoRange : Option RangeDesc
  aiMode : Nat
  aiRange : Option RangeDesc
  doPort : Nat
  diPort : Nat
deriving DecidableEq, Repr

/-- The full result of config application: the common settings plus the
poll interval (`sleep_time`). -/
abbrev Applied := AppliedCommon × ConfigVal

/-- The shared first six steps of `DAQ._apply_config` (daq_linux.py 73-83)
and `DAQ._applyConfig` (daq_windows.py 110-125), in the Python evaluation
order: DACrange, ADCmode, ADCrange, ADCpolarity, DOutPort, DInPort.  The
Windows wrapper's `except KeyError: ... raise` re-raises the same error,
so it is behaviourally transparent and not modelled separately. -/
def applyConfigCommon (modeTable portTable : List String) (rangeTable : List RangeDesc)
    (c : Config) : Except DaqError AppliedCommon := do
  let dacV ← configGet c "DACrange"
  let aoRange := lookUpRangeVal rangeTable dacV "unipolar"
  let modeV ← configGet c "ADCmode"
  let modeS ← asStr modeV
  let aiMode ← lookUpMode modeTable modeS
  let adcV ← configGet c "ADCrange"
  let polV ← configGet c "ADCpolarity"
  let polS ← asStr polV
  let aiRange := lookUpRangeVal rangeTable adcV polS
  let doV ← configGet c "DOutPort"
  let doS ← asStr doV
  let doPort ← lookUpDioPort portTable doS
  let diV ← configGet c "DInPort"
  let diS ← asStr diV
  let diPort ← lookUpDioPort portTable diS
  pure ⟨aoRange, aiMode, aiRange, doPort, diPort⟩

/-- Embedding of `DAQ._applyConfig` of daq_windows.py 110-130: the common steps, then
`self.sleepTime = self.config["sleep_time"]` — an indexing lookup. -/
def applyConfigWindows (modeTable portTable : List String) (rangeTable : List RangeDesc)
    (c : Config) : Except DaqError Applied := do
  let p ← applyConfigCommon modeTable portTable rangeTable c
  let st ← configGet c "sleep_time"
  pure (p, st)

/-- Embedding of `DAQ._apply_config` of daq_linux.py 73-84: the common steps, then
`self.sleep_time = self.config("sleep_time")` — a call, not an indexing,
so this step always raises `TypeError` (`configCall`). -/
def applyConfigLinux (modeTable portTable : List String) (rangeTable : List RangeDesc)
    (c : Config) : Except DaqError Applied := do
  let p ← applyConfigCommon modeTable portTable rangeTable c
  let st ← configCall c "sleep_time"
  pure (p, st)

/-- Whether an `Except` result is a success. -/
def isOkE {α : Type} : Except DaqError α → Bool
  | .ok _ => true
  | .error _ => false

/-- The required configuration keys in the order `_apply_config` /
`_applyConfig` reads them. -/
def requiredKeys : List String :=
  ["DACrange", "ADCmode", "ADCrange", "ADCpolarity", "DOutPort", "DInPort", "sleep_time"]

/-- The first required key absent from a configuration, in read order. -/
def firstMissingKey (c : Config) : Option String :=
  requiredKeys.find? (fun k => (c k).isNone)

/-- Whether a present configuration value resolves without raising at its
use site: the ADC mode and the two port names must be strings whose
uppercasing is a member of the respective enum table, and the ADC polarity
must be a string; every other key's value is used without a fallible
resolution step. -/
def resolvableVal (modeTable portTable : List String) (k : String) (v : ConfigVal) : Bool :=
  if k = "ADCmode" then
    match v with
    | .str s => modeTable.contains (pyUpper s)
    | .num _ => false
  else if k = "ADCpolarity" then
    match v with
    | .str _ => true
    | .num _ => false
  else if k = "DOutPort" ∨ k = "DInPort" then
    match v with
    | .str s => portTable.contains (pyUpper s)
    | .num _ => false
  else true

/-- Members of `mcculw.enums.DigitalPortType` relevant to `DAQ.DOut`
(the enum has further members; a representative sample of the "other"
members suffices for the claims). -/
inductive DigitalPortType where
  | FIRSTPORTA
  | FIRSTPORTB
  | FIRSTPORTCL
  | FIRSTPORTCH
  | SECONDPORTA
  | AUXPORT
deriving DecidableEq, Repr

/-- Backend calls made by the Windows `DOut` after the port index is
resolved: `d_config_port(boardnum, port_info.type, OUT)` then
`d_bit_out(boardnum, port_info.type, channel, data)`.  The port is
identified here by the `port_n` index into `DioInfo.port_info`. -/
inductive DOutEvent where
  | configPort (portN : Nat)
  | bitOut (portN : Nat) (channel : Int) (data : Nat)
deriving DecidableEq, Repr

/-- The `if/elif` port mapping of daq_windows.py 348-354: only FIRSTPORTA,
FIRSTPORTB and AUXPORT assign `port_n`; any other member leaves it
unassigned (`none`). -/
def winPortIndex : DigitalPortType → Option Nat
  | .FIRSTPORTA => some 0
  | .FIRSTPORTB => some 1
  | .AUXPORT => some 0
  | _ => none

/-- Embedding of `DAQ.DOut` of daq_windows.py 337-361: connection guard, default-port
substitution, the `if/elif` port mapping, then configure the port
direction and write the bit.  When `port_n` was never assigned, the read
`self.DioInfo.port_info[port_n]` raises `UnboundLocalError` before either
backend call, so the event trace stays empty. -/
def DOut (connected : Bool) (doPortDefault : DigitalPortType)
    (port : Option DigitalPortType) (channel : Int) (data : Nat) :
    List DOutEvent × Option DaqError :=
  if connected = false then
    ([], some (.runtimeError "DAQ device is not connected"))
  else
    let p := port.getD doPortDefault
    match winPortIndex p with
    | none => ([], some .unboundLocal)
    | some n => ([.configPort n, .bitOut n channel data], none)

/-- A mock scan backend whose start-scan call fails; the poll stream and
the buffer are irrelevant on that path. -/
def envStartFail : ScanEnv :=
  ⟨true, true, 4, false, fun _ => .ok .running ⟨0, 0⟩, fun i => (i : Rat), 1⟩

/-- A mock scan backend that starts successfully but whose status polls
forever report RUNNING with a sample count of `0`: the scan never
completes and never goes idle. -/
def envRunForever : ScanEnv :=
  ⟨true, true, 4, true, fun _ => .ok .running ⟨0, 0⟩, fun i => (i : Rat), 1⟩

/-- A mock scan backend whose first body poll reports a completed sample
count (RUNNING status), so the loop exits on the success path; the buffer
holds the increasing sequence 0, 1, 2, ... -/
def envComplete : ScanEnv :=
  ⟨true, true, 2, true, fun _ => .ok .running ⟨1000000, 0⟩, fun i => (i : Rat), 1⟩

/-- Mode table for concrete runs: `enums.AnalogInputMode` member names. -/
def modeTableEx : List String := ["DIFFERENTIAL", "SINGLE_ENDED"]

/-- Port table for concrete runs: `enums.DigitalPortType` member names. -/
def portTableEx : List String := ["AUXPORT", "FIRSTPORTA", "FIRSTPORTB"]

/-- Range table for concrete runs: a slice of `enums.ULRange` in its
declaration order. -/
def rangeTableEx : List RangeDesc :=
  [⟨"BIP20VOLTS", 20⟩, ⟨"BIP10VOLTS", 10⟩, ⟨"BIP5VOLTS", 5⟩,
   ⟨"UNI10VOLTS", 10⟩, ⟨"UNI5VOLTS", 5⟩]

/-- A configuration holding every required key except `sleep_time`, with
values that resolve. -/
def cfgMissingSleep : Config := fun k =>
  if k = "DACrange" then some (.num 5)
  else if k = "ADCmode" then some (.str "differential")
  else if k = "ADCrange" then some (.num 10)
  else if k = "ADCpolarity" then some (.str "bipolar")
  else if k = "DOutPort" then some (.str "firstportA")
  else if k = "DInPort" then some (.str "firstportB")
  else none

/-- A configuration holding every required key, with values that
resolve. -/
def cfgFull : Config := fun k =>
  if k = "sleep_time" then some (.num 1)
  else cfgMissingSleep k

/-- A configuration holding every required key except `ADCmode`, with
values that resolve. -/
def cfgMissingMode : Config := fun k =>
  if k = "DACrange" then some (.num 5)
  else if k = "ADCrange" then some (.num 10)
  else if k = "ADCpolarity" then some (.str "bipolar")
  else if k = "DOutPort" then some (.str "firstportA")
  else if k = "DInPort" then some (.str "firstportB")
  else if k = "sleep_time" then some (.num 1)
  else none

/-- The matrix returned by `envComplete` scans with 3 samples per channel
over 2 channels. -/
def mEx : List (List Rat) := [[0, 1], [2, 3], [4, 5]]

deriving instance DecidableEq for Except

theorem reshape_length (l : List Rat) (spc cc : Nat) : (reshape l spc cc).length = spc := by
  simp [reshape]

theorem reshape_getD_row (l : List Rat) (spc cc row : Nat) (hr : row < spc) :
    (reshape l spc cc).getD row [] = (List.range cc).map (fun c => l.getD (row * cc + c) 0) := by
  simp [reshape, List.getD_eq_getElem?_getD, List.getElem?_map, List.getElem?_range, hr]

theorem range_map_getD (f : Nat → Rat) (n i : Nat) (h : i < n) :
    ((List.range n).map f).getD i 0 = f i := by
  simp [List.getD_eq_getElem?_getD, List.getElem?_map, List.getElem?_range, h]

theorem row_major_index_lt (spc cc row col : Nat) (hr : row < spc) (hc : col < cc) :
    row * cc + col < spc * cc := by
  calc row * cc + col < row * cc + cc := by omega
  _ = (row + 1) * cc := by ring
  _ ≤ spc * cc := Nat.mul_le_mul_right cc hr

/-- C6: `look_up_range` returns the first descriptor in table order whose
name starts with the first two characters of the uppercased requested
polarity and whose declared maximum voltage equals the requested value
exactly; when no descriptor matches it returns the `None` sentinel
(`List.find?` yields `none`), and it is a total function — it never
raises.  Determinism is immediate: the result is a function of the table
and the request. -/
theorem C6_lookUpRange_first_match (table : List RangeDesc) (rang : Rat) (polarity : String) :
    lookUpRange table rang polarity = table.find? (rangeMatches rang polarity) := by
  induction table with
  | nil => rfl
  | cons h t ih =>
    simp only [lookUpRange, lookUpRangeLoop, List.find?, rangeMatches] at *
    by_cases hp : startsWithTag h.name polarity
    · by_cases hr : h.range_max = rang
      · simp [hp, hr]
      · simp [hp, hr, ih]
    · simp [hp, ih]

/-- C1 (code bug): on a connected device with 4 analog-input channels,
`AIn` rejects channel `-1` and channel `5`, but channel `4` — equal to the
channel count, the first invalid index — passes the `channel >
number_of_channels` guard and is handed to the backend read, which
succeeds.  The spec requires a validation error for channel equal to the
channel count, before any backend call. -/
theorem C1_ain_boundary_bug :
    AIn true 4 (fun _ => (5 : Rat)) 4 = .ok 5 ∧
    AIn true 4 (fun _ => (5 : Rat)) (-1) =
      .error (.valueError "channel index must be 0 or positive") ∧
    AIn true 4 (fun _ => (5 : Rat)) 5 =
      .error (.valueError "channel index requested is higher than number of channels") := by
  exact ⟨rfl, rfl, rfl⟩

/-- C4 counterexample: the Linux `AInScan` does not clamp a negative low
channel.  For `number_of_channels = 4`, `low = -2`, `high = 2` the claim
predicts a clamped `low = 0` and `channel_count = 3`, but the code leaves
`low = -2` and computes `channel_count = 5`. -/
theorem C4_counterexample :
    linuxScanParams 4 (-2) 2 = (-2, 2, 5) ∧ (linuxScanParams 4 (-2) 2).1 ≠ 0 := by
  exact ⟨rfl, by decide⟩

/-- C4 (amended): both variants clamp the high channel to
`number_of_channels - 1`; only the Windows variant clamps a negative low
channel to `0`, the Linux variant passes it through unchanged; the channel
count is `high - low + 1` computed after the clamps.  The request
`(low = 0, high = 99)` against 4 channels yields `high = 3` and
`channel_count = 4` in both variants. -/
theorem C4_clamping (noc low high : Int) :
    windowsScanParams noc low high =
      (max low 0, min high (noc - 1), min high (noc - 1) - max low 0 + 1) ∧
    linuxScanParams noc low high =
      (low, min high (noc - 1), min high (noc - 1) - low + 1) ∧
    windowsScanParams 4 0 99 = (0, 3, 4) ∧ linuxScanParams 4 0 99 = (0, 3, 4) := by
  refine ⟨?_, ?_, by decide, by decide⟩
  · unfold windowsScanParams
    split_ifs with h1 h2 h2 <;> simp [Prod.ext_iff] <;> omega
  · unfold linuxScanParams
    split_ifs with h1 <;> simp [Prod.ext_iff] <;> omega

/-- C10: the Windows `DOut` maps FIRSTPORTA to port index 0, FIRSTPORTB to
1 and AUXPORT to 0, then configures the direction and writes the bit; any
other resolved port value on a connected device raises
`UnboundLocalError` before either backend call (empty event trace). -/
theorem C10_dout_ports (dflt p : DigitalPortType) (ch : Int) (d : Nat) :
    DOut true dflt (some .FIRSTPORTA) ch d =
      ([.configPort 0, .bitOut 0 ch d], none) ∧
    DOut true dflt (some .FIRSTPORTB) ch d =
      ([.configPort 1, .bitOut 1 ch d], none) ∧
    DOut true dflt (some .AUXPORT) ch d =
      ([.configPort 0, .bitOut 0 ch d], none) ∧
    (p ≠ .FIRSTPORTA → p ≠ .FIRSTPORTB → p ≠ .AUXPORT →
      DOut true dflt (some p) ch d = ([], some .unboundLocal)) := by
  refine ⟨rfl, rfl, rfl, ?_⟩
  intro h1 h2 h3
  cases p
  · exact absurd rfl h1
  · exact absurd rfl h2
  · rfl
  · rfl
  · rfl
  · exact absurd rfl h3

/-- C10 witness: a concrete other port member, FIRSTPORTCL, on a connected
device: `UnboundLocalError`, no backend call. -/
theorem C10_dout_ports_witness :
    DOut true .FIRSTPORTA (some .FIRSTPORTCL) 0 1 = ([], some .unboundLocal) :=
  (C10_dout_ports .FIRSTPORTA .FIRSTPORTCL 0 1).2.2.2
    (by decide) (by decide) (by decide)

theorem reshape_getD_row_length (l : List Rat) (spc cc row : Nat) (hr : row < spc) :
    ((reshape l spc cc).getD row []).length = cc := by
  rw [reshape_getD_row l spc cc row hr]
  simp

theorem reshape_buf_elem (buf : Nat → Rat) (spc cc row col : Nat)
    (hr : row < spc) (hc : col < cc) :
    ((reshape ((List.range (spc * cc)).map buf) spc cc).getD row []).getD col 0 =
      buf (row * cc + col) := by
  rw [reshape_getD_row _ spc cc row hr,
      range_map_getD (fun c => ((List.range (spc * cc)).map buf).getD (row * cc + c) 0) cc col hc]
  exact range_map_getD buf _ _ (row_major_index_lt spc cc row col hr hc)

theorem winScan_ok_inv (env : ScanEnv) (low high : Int) (rate spc : Nat)
    (st : Option Nat) (fuel : Nat) (m : List (List Rat))
    (h : (windowsAInScan env low high rate spc st fuel).2 = .ok m) :
    m = reshape ((List.range (spc * (windowsScanParams env.noc low high).2.2.toNat)).map env.buf)
          spc (windowsScanParams env.noc low high).2.2.toNat := by
  simp only [windowsAInScan] at h
  split at h
  · simp at h
  · split at h
    · simp at h
    · split at h <;> simp_all

theorem linScan_ok_inv (env : ScanEnv) (low high : Int) (rate spc : Nat)
    (st : Option Nat) (fuel : Nat) (m : List (List Rat))
    (h : (linuxAInScan env low high rate spc st fuel).2 = .ok m) :
    m = reshape ((List.range (spc * (linuxScanParams env.noc low high).2.2.toNat)).map env.buf)
          spc (linuxScanParams env.noc low high).2.2.toNat := by
  simp only [linuxAInScan] at h
  split at h
  · simp at h
  · split at h
    · simp at h
    · split at h
      · simp at h
      · split at h <;> split at h <;> simp_all
      · split at h <;> split at h <;> simp_all
      · simp at h

/-- C7: any matrix returned by a completed `AInScan` (either variant) has
shape `(samples_per_channel, channel_count)` and is the row-major
reshaping of the raw buffer: entry `(row, col)` is the raw sample the
hardware deposited at buffer index `row * channel_count + col`. -/
theorem C7_scan_reshape (env : ScanEnv) (low high : Int) (rate spc : Nat)
    (st : Option Nat) (fuel : Nat) (row col : Nat) :
    (∀ m, (windowsAInScan env low high rate spc st fuel).2 = .ok m →
      row < spc → col < (windowsScanParams env.noc low high).2.2.toNat →
      m.length = spc ∧
      (m.getD row []).length = (windowsScanParams env.noc low high).2.2.toNat ∧
      (m.getD row []).getD col 0 =
        env.buf (row * (windowsScanParams env.noc low high).2.2.toNat + col)) ∧
    (∀ m, (linuxAInScan env low high rate spc st fuel).2 = .ok m →
      row < spc → col < (linuxScanParams env.noc low high).2.2.toNat →
      m.length = spc ∧
      (m.getD row []).length = (linuxScanParams env.noc low high).2.2.toNat ∧
      (m.getD row []).getD col 0 =
        env.buf (row * (linuxScanParams env.noc low high).2.2.toNat + col)) := by
  constructor
  · intro m hm hr hc
    rw [winScan_ok_inv env low high rate spc st fuel m hm]
    exact ⟨reshape_length _ _ _, reshape_getD_row_length _ _ _ _ hr,
      reshape_buf_elem env.buf spc _ row col hr hc⟩
  · intro m hm hr hc
    rw [linScan_ok_inv env low high rate spc st fuel m hm]
    exact ⟨reshape_length _ _ _, reshape_getD_row_length _ _ _ _ hr,
      reshape_buf_elem env.buf spc _ row col hr hc⟩

/-- C7 witness: the backend `envComplete` fills the raw buffer with the
increasing sequence 0, 1, ..., 5; the completed scan with 3 samples per
channel over channels 0-1 returns the 3-by-2 matrix `mEx`, and its entry
`(1, 1)` is the raw sample at buffer index `1 * 2 + 1`. -/
theorem C7_scan_reshape_witness :
    mEx.length = 3 ∧ (mEx.getD 1 []).length = 2 ∧
    (mEx.getD 1 []).getD 1 0 = envComplete.buf (1 * 2 + 1) :=
  (C7_scan_reshape envComplete 0 1 1000 3 none 10 1 1).1 mEx
    (by decide) (by decide) (by decide)

theorem stopCount_windows (env : ScanEnv) (low high : Int) (rate spc : Nat)
    (st : Option Nat) (fuel : Nat) :
    stopCount (windowsAInScan env low high rate spc st fuel) =
      if env.hasPacer = false then 0
      else if env.startOk = false then 1
      else
        match winLoop env.polls (spc * (windowsScanParams env.noc low high).2.2.toNat) fuel with
        | .noFuel => 0
        | _ => 1 := by
  by_cases hp : env.hasPacer = false
  · simp [windowsAInScan, stopCount, hp]
  · have hp' : env.hasPacer = true := by simpa using hp
    by_cases hs : env.startOk = false
    · simp [windowsAInScan, stopCount, hp, hp', hs]
      try decide
    · have hs' : env.startOk = true := by simpa using hs
      cases hw : winLoop env.polls (spc * (windowsScanParams env.noc low high).2.2.toNat) fuel <;>
        (simp [windowsAInScan, stopCount, hp, hp', hs, hs', hw]; try decide)

theorem stopCount_linux (env : ScanEnv) (low high : Int) (rate spc : Nat)
    (st : Option Nat) (fuel : Nat) :
    stopCount (linuxAInScan env low high rate spc st fuel) =
      if env.hasPacer = false then 0
      else if env.startOk = false then 0
      else
        match linuxLoop env.polls env.sleepT (st.getD 500000) spc fuel 0 none with
        | .noFuel => 0
        | e => if env.connected = true ∧ lastKnown e = some .running then 1 else 0 := by
  by_cases hp : env.hasPacer = false
  · simp [linuxAInScan, stopCount, hp]
  · have hp' : env.hasPacer = true := by simpa using hp
    by_cases hs : env.startOk = false
    · cases hc : env.connected <;>
        (simp [linuxAInScan, stopCount, hp, hp', hs, hc, linuxFinally]; try decide)
    · have hs' : env.startOk = true := by simpa using hs
      cases hl : linuxLoop env.polls env.sleepT (st.getD 500000) spc fuel 0 none with
      | noFuel => simp [linuxAInScan, stopCount, hp, hp', hs, hs', hl]
      | done s =>
        cases hc : env.connected <;> cases s <;>
          (simp [linuxAInScan, stopCount, hp, hp', hs, hs', hl, hc, linuxFinally, lastKnown];
           try decide)
      | timeout l =>
        cases hc : env.connected <;> rcases l with _ | (_ | _) <;>
          (simp [linuxAInScan, stopCount, hp, hp', hs, hs', hl, hc, linuxFinally, lastKnown];
           try decide)
      | exc l =>
        cases hc : env.connected <;> rcases l with _ | (_ | _) <;>
          (simp [linuxAInScan, stopCount, hp, hp', hs, hs', hl, hc, linuxFinally, lastKnown];
           try decide)

/-- C2 counterexample: when the backend start-scan call itself fails, the
Windows variant still invokes `stop_background` exactly once — its
`finally` block runs unconditionally — where the claim requires zero stop
invocations. -/
theorem C2_counterexample :
    stopCount (windowsAInScan envStartFail 0 1 1000 5 none 10) = 1 ∧
    stopCount (windowsAInScan envStartFail 0 1 1000 5 none 10) ≠ 0 := by
  decide

/-- C2 (amended): per `AInScan` call the backend stop command is invoked
at most once in both variants.  If the start-scan call fails, the Windows
variant invokes stop exactly once (unconditional `finally`), the Linux
variant zero times (its `finally` trips on the unbound `status` local
first).  When the start succeeds, the Windows variant stops exactly once
on every loop exit — completion, going idle, or a polling exception —
while the Linux variant stops exactly once precisely when the device
handle is set and the last observed scan status was RUNNING. -/
theorem C2_stop_discipline (env : ScanEnv) (low high : Int) (rate spc : Nat)
    (st : Option Nat) (fuel : Nat) :
    stopCount (windowsAInScan env low high rate spc st fuel) ≤ 1 ∧
    stopCount (linuxAInScan env low high rate spc st fuel) ≤ 1 ∧
    (env.hasPacer = false →
      stopCount (windowsAInScan env low high rate spc st fuel) = 0 ∧
      stopCount (linuxAInScan env low high rate spc st fuel) = 0) ∧
    (env.hasPacer = true → env.startOk = false →
      stopCount (windowsAInScan env low high rate spc st fuel) = 1 ∧
      stopCount (linuxAInScan env low high rate spc st fuel) = 0) ∧
    (env.hasPacer = true → env.startOk = true →
      winLoop env.polls (spc * (windowsScanParams env.noc low high).2.2.toNat) fuel ≠ .noFuel →
      stopCount (windowsAInScan env low high rate spc st fuel) = 1) ∧
    (env.hasPacer = true → env.startOk = true →
      (stopCount (linuxAInScan env low high rate spc st fuel) = 1 ↔
        env.connected = true ∧
        lastKnown (linuxLoop env.polls env.sleepT (st.getD 500000) spc fuel 0 none) =
          some .running)) := by
  have hw := stopCount_windows env low high rate spc st fuel
  have hl := stopCount_linux env low high rate spc st fuel
  refine ⟨?_, ?_, ?_, ?_, ?_, ?_⟩
  · rw [hw]
    split
    · omega
    · split
      · omega
      · split <;> omega
  · rw [hl]
    split
    · omega
    · split
      · omega
      · split
        · omega
        · split <;> omega
  · intro h
    rw [hw, hl]
    simp [h]
  · intro h h2
    rw [hw, hl]
    simp [h, h2]
  · intro h h2 h3
    rw [hw]
    simp [h, h2]
  · intro h h2
    rw [hl]
    simp [h, h2]
    cases hq : linuxLoop env.polls env.sleepT (st.getD 500000) spc fuel 0 none with
    | noFuel => simp [lastKnown]
    | done s =>
      show (if env.connected = true ∧ lastKnown (.done s) = some .running then 1 else 0) = 1 ↔ _
      split <;> simp_all
    | timeout l =>
      show (if env.connected = true ∧ lastKnown (.timeout l) = some .running then 1 else 0) = 1 ↔ _
      split <;> simp_all
    | exc l =>
      show (if env.connected = true ∧ lastKnown (.exc l) = some .running then 1 else 0) = 1 ↔ _
      split <;> simp_all

/-- C2 witness: for the concrete failing-start backend, the Windows scan
records one stop invocation and the Linux scan records none. -/
theorem C2_stop_discipline_witness :
    stopCount (windowsAInScan envStartFail 0 1 1000 5 none 10) = 1 ∧
    stopCount (linuxAInScan envStartFail 0 1 1000 5 none 10) = 0 :=
  (C2_stop_discipline envStartFail 0 1 1000 5 none 10).2.2.2.1 rfl rfl

theorem linuxLoop_no_noFuel (polls : Nat → PollEvent) (sleepT scanT spc : Nat)
    (hs : 1 ≤ sleepT) :
    ∀ fuel k last, scanT / sleepT + 1 < k + fuel → k ≤ scanT / sleepT + 1 →
      linuxLoop polls sleepT scanT spc fuel k last ≠ .noFuel := by
  intro fuel
  induction fuel with
  | zero => intro k last h1 h2; omega
  | succ n ih =>
    intro k last h1 h2
    by_cases ht : k * sleepT > scanT
    · simp [linuxLoop, ht]
    · have hk : k ≤ scanT / sleepT := by
        rw [Nat.le_div_iff_mul_le hs]; omega
      cases hpk : polls k with
      | raiseExc => simp [linuxLoop, ht, hpk]
      | ok s ts =>
        by_cases hc : ts.current_scan_count ≥ spc
        · simp [linuxLoop, ht, hpk, hc]
        · simp only [linuxLoop, if_neg ht, hpk, if_neg hc]
          exact ih (k + 1) (some s) (by omega) (by omega)

theorem linuxLoop_timeout (polls : Nat → PollEvent) (sleepT scanT spc : Nat)
    (hs : 1 ≤ sleepT)
    (hp : ∀ j, ∃ s ts, polls j = .ok s ts ∧ ts.current_scan_count < spc) :
    ∀ fuel k last, scanT / sleepT + 1 < k + fuel → k ≤ scanT / sleepT + 1 →
      ∃ l, linuxLoop polls sleepT scanT spc fuel k last = .timeout l := by
  intro fuel
  induction fuel with
  | zero => intro k last h1 h2; omega
  | succ n ih =>
    intro k last h1 h2
    by_cases ht : k * sleepT > scanT
    · exact ⟨last, by simp [linuxLoop, ht]⟩
    · have hk : k ≤ scanT / sleepT := by
        rw [Nat.le_div_iff_mul_le hs]; omega
      obtain ⟨s, ts, hpk, hcount⟩ := hp k
      have hc : ¬ ts.current_scan_count ≥ spc := by omega
      simp only [linuxLoop, if_neg ht, hpk, if_neg hc]
      exact ih (k + 1) (some s) (by omega) (by omega)

/-- C3 counterexample: the Windows `AInScan` ignores a supplied
`scan_time`.  With `scan_time = 1`, `sleep_time = 1` and a backend that
forever reports RUNNING with sample count `0`, the loop has still not
exited after 100 polls — elapsed time 100, two orders of magnitude past
the timeout (the model reports exhausted fuel, i.e. the loop is still
running) — and the call's result is literally identical to the call with
no `scan_time` at all. -/
theorem C3_counterexample :
    (windowsAInScan envRunForever 0 1 1000 5 (some 1) 100).2 = .error .outOfFuel ∧
    windowsAInScan envRunForever 0 1 1000 5 (some 1) 100 =
      windowsAInScan envRunForever 0 1 1000 5 none 100 := by
  exact ⟨by decide, rfl⟩

/-- C3 (amended): in the Linux variant the polling loop exits once the
elapsed time exceeds `scan_time` regardless of the reported sample count
(with enough fuel for `scan_time / sleep_time + 1` iterations the loop
never exhausts it, and if the backend never completes the samples the exit
is the timeout exit), and an absent `scan_time` defaults to the large
bound 500000 rather than being unbounded.  The Windows variant ignores
`scan_time` entirely: the call's result does not depend on it. -/
theorem C3_timeout_bound (env : ScanEnv) (low high : Int) (rate spc : Nat)
    (st : Option Nat) (scanT fuel : Nat) :
    linuxAInScan env low high rate spc none fuel =
      linuxAInScan env low high rate spc (some 500000) fuel ∧
    (1 ≤ env.sleepT → scanT / env.sleepT + 1 < fuel →
      linuxLoop env.polls env.sleepT scanT spc fuel 0 none ≠ .noFuel) ∧
    ((∀ j, ∃ s ts, env.polls j = .ok s ts ∧ ts.current_scan_count < spc) →
      1 ≤ env.sleepT → scanT / env.sleepT + 1 < fuel →
      ∃ l, linuxLoop env.polls env.sleepT scanT spc fuel 0 none = .timeout l) ∧
    windowsAInScan env low high rate spc st fuel =
      windowsAInScan env low high rate spc none fuel := by
  refine ⟨rfl, ?_, ?_, rfl⟩
  · intro hs hf
    exact linuxLoop_no_noFuel env.polls env.sleepT scanT spc hs fuel 0 none
      (by omega) (Nat.zero_le _)
  · intro hp hs hf
    exact linuxLoop_timeout env.polls env.sleepT scanT spc hs hp fuel 0 none
      (by omega) (Nat.zero_le _)

/-- C3 witness: against the never-completing backend, the Linux loop with
`scan_time = 1` and 100 fuel exits — and exits via the timeout path. -/
theorem C3_timeout_bound_witness :
    linuxLoop envRunForever.polls envRunForever.sleepT 1 5 100 0 none ≠ .noFuel ∧
    (∃ l, linuxLoop envRunForever.polls envRunForever.sleepT 1 5 100 0 none = .timeout l) :=
  ⟨(C3_timeout_bound envRunForever 0 1 1000 5 none 1 100).2.1 (by decide) (by decide),
   (C3_timeout_bound envRunForever 0 1 1000 5 none 1 100).2.2.1
     (fun j => ⟨.running, ⟨0, 0⟩, rfl, by decide⟩) (by decide) (by decide)⟩

theorem freeCount_windows_eq (env : ScanEnv) (low high : Int) (rate spc : Nat)
    (st : Option Nat) (fuel : Nat) :
    freeCount (windowsAInScan env low high rate spc st fuel) =
      if isOkE (windowsAInScan env low high rate spc st fuel).2 then 1 else 0 := by
  by_cases hp : env.hasPacer = false
  · simp [windowsAInScan, freeCount, hp, isOkE]
  · have hp' : env.hasPacer = true := by simpa using hp
    by_cases hs : env.startOk = false
    · simp [windowsAInScan, freeCount, hp, hp', hs, isOkE]
      try decide
    · have hs' : env.startOk = true := by simpa using hs
      cases hw : winLoop env.polls (spc * (windowsScanParams env.noc low high).2.2.toNat) fuel <;>
        (simp [windowsAInScan, freeCount, hp, hp', hs, hs', hw, isOkE]; try decide)

theorem freeCount_linux_eq (env : ScanEnv) (low high : Int) (rate spc : Nat)
    (st : Option Nat) (fuel : Nat) :
    freeCount (linuxAInScan env low high rate spc st fuel) = 0 := by
  by_cases hp : env.hasPacer = false
  · simp [linuxAInScan, freeCount, hp]
  · have hp' : env.hasPacer = true := by simpa using hp
    by_cases hs : env.startOk = false
    · cases hc : env.connected <;>
        (simp [linuxAInScan, freeCount, hp, hp', hs, hc, linuxFinally]; try decide)
    · have hs' : env.startOk = true := by simpa using hs
      cases hl : linuxLoop env.polls env.sleepT (st.getD 500000) spc fuel 0 none with
      | noFuel => simp [linuxAInScan, freeCount, hp, hp', hs, hs', hl]
      | done s =>
        cases hc : env.connected <;> cases s <;>
          (simp [linuxAInScan, freeCount, hp, hp', hs, hs', hl, hc, linuxFinally, lastKnown];
           try decide)
      | timeout l =>
        cases hc : env.connected <;> rcases l with _ | (_ | _) <;>
          (simp [linuxAInScan, freeCount, hp, hp', hs, hs', hl, hc, linuxFinally, lastKnown];
           try decide)
      | exc l =>
        cases hc : env.connected <;> rcases l with _ | (_ | _) <;>
          (simp [linuxAInScan, freeCount, hp, hp', hs, hs', hl, hc, linuxFinally, lastKnown];
           try decide)

/-- C5 counterexample: a Windows scan whose backend start call fails
propagates the backend error with zero buffer releases recorded — the
buffer is not released on this exit path, contradicting the claim that it
is released on every exit path before the call propagates. -/
theorem C5_counterexample :
    freeCount (windowsAInScan envStartFail 0 1 1000 5 none 10) = 0 ∧
    (windowsAInScan envStartFail 0 1 1000 5 none 10).2 = .error .backendError := by
  decide

/-- C5 (amended): in the Windows variant the scan buffer is released
exactly once on the success path (after the reshape, before the matrix is
returned) and zero times on any error exit — start failure or a polling
exception propagates with the buffer still allocated.  The Linux variant
issues no explicit release on any path (its buffer is an ordinary
garbage-collected object). -/
theorem C5_buffer_release (env : ScanEnv) (low high : Int) (rate spc : Nat)
    (st : Option Nat) (fuel : Nat) :
    (∀ m, (windowsAInScan env low high rate spc st fuel).2 = .ok m →
      freeCount (windowsAInScan env low high rate spc st fuel) = 1) ∧
    (∀ e, (windowsAInScan env low high rate spc st fuel).2 = .error e →
      freeCount (windowsAInScan env low high rate spc st fuel) = 0) ∧
    freeCount (linuxAInScan env low high rate spc st fuel) = 0 := by
  refine ⟨?_, ?_, freeCount_linux_eq env low high rate spc st fuel⟩
  · intro m hm
    rw [freeCount_windows_eq, hm]
    simp [isOkE]
  · intro e he
    rw [freeCount_windows_eq, he]
    simp [isOkE]

/-- C5 witness: the completed Windows scan frees its buffer exactly once,
the fuel-exhausted (still running) one has freed nothing, and a completed
Linux scan records no release. -/
theorem C5_buffer_release_witness :
    freeCount (windowsAInScan envComplete 0 1 1000 3 none 10) = 1 ∧
    freeCount (windowsAInScan envRunForever 0 1 1000 5 none 10) = 0 ∧
    freeCount (linuxAInScan envComplete 0 1 1000 3 none 10) = 0 :=
  ⟨(C5_buffer_release envComplete 0 1 1000 3 none 10).1 mEx (by decide),
   (C5_buffer_release envRunForever 0 1 1000 5 none 10).2.1 .outOfFuel (by decide),
   (C5_buffer_release envComplete 0 1 1000 3 none 10).2.2⟩

theorem bindE_ok {α β : Type} (a : α) (f : α → Except DaqError β) :
    (Except.ok a >>= f) = f a := rfl

theorem bindE_err {α β : Type} (e : DaqError) (f : α → Except DaqError β) :
    ((Except.error e : Except DaqError α) >>= f) = .error e := rfl

theorem pureE {α : Type} (a : α) : (pure a : Except DaqError α) = .ok a := rfl

/-- C8 counterexample: a merged configuration holding every required key
except the poll interval `sleep_time`.  The Linux `_apply_config` fails on
it with `TypeError` — the poll-interval step calls the config object
instead of indexing it — rather than with an error naming the offending
key. -/
theorem C8_counterexample :
    applyConfigLinux modeTableEx portTableEx rangeTableEx cfgMissingSleep =
      .error .typeError ∧
    DaqError.typeError ≠ DaqError.keyError "sleep_time" := by
  decide

/-- C8 (amended): for a merged configuration whose present values resolve,
let `k` be the first required key missing in the read order DACrange,
ADCmode, ADCrange, ADCpolarity, DOutPort, DInPort, sleep_time.  The
Windows `_applyConfig` fails with a `KeyError` naming `k`; the Linux
`_apply_config` does the same for every `k` other than `sleep_time`, but
when only `sleep_time` is missing it fails with a `TypeError` that names
no key.  The failure is a raised exception — fatal to the triggering
operation only, modelled as a returned error value. -/
theorem C8_missing_key (mt pt : List String) (rt : List RangeDesc) (c : Config) (k : String)
    (hres : ∀ kk v, c kk = some v → resolvableVal mt pt kk v = true)
    (hk : firstMissingKey c = some k) :
    applyConfigWindows mt pt rt c = .error (.keyError k) ∧
    (k ≠ "sleep_time" → applyConfigLinux mt pt rt c = .error (.keyError k)) ∧
    (k = "sleep_time" → applyConfigLinux mt pt rt c = .error .typeError) := by
  cases hD : c "DACrange" with
  | none =>
    have hkk : "DACrange" = k := by
      simpa [firstMissingKey, requiredKeys, List.find?, hD] using hk
    subst hkk
    refine ⟨?_, fun _ => ?_, fun hx => absurd hx (by decide)⟩ <;>
      simp [applyConfigWindows, applyConfigLinux, applyConfigCommon, configGet, hD,
        bindE_ok, bindE_err, pureE]
  | some dacV =>
    cases hM : c "ADCmode" with
    | none =>
      have hkk : "ADCmode" = k := by
        simpa [firstMissingKey, requiredKeys, List.find?, hD, hM] using hk
      subst hkk
      refine ⟨?_, fun _ => ?_, fun hx => absurd hx (by decide)⟩ <;>
        simp [applyConfigWindows, applyConfigLinux, applyConfigCommon, configGet, hD, hM,
          bindE_ok, bindE_err, pureE]
    | some modeV =>
      have hmv := hres "ADCmode" modeV hM
      cases modeV with
      | num q => simp [resolvableVal] at hmv
      | str ms =>
        simp [resolvableVal] at hmv
        cases hR : c "ADCrange" with
        | none =>
          have hkk : "ADCrange" = k := by
            simpa [firstMissingKey, requiredKeys, List.find?, hD, hM, hR] using hk
          subst hkk
          refine ⟨?_, fun _ => ?_, fun hx => absurd hx (by decide)⟩ <;>
            simp [applyConfigWindows, applyConfigLinux, applyConfigCommon, configGet, asStr,
              lookUpMode, hD, hM, hmv, hR, bindE_ok, bindE_err, pureE]
        | some adcV =>
          cases hP : c "ADCpolarity" with
          | none =>
            have hkk : "ADCpolarity" = k := by
              simpa [firstMissingKey, requiredKeys, List.find?, hD, hM, hR, hP] using hk
            subst hkk
            refine ⟨?_, fun _ => ?_, fun hx => absurd hx (by decide)⟩ <;>
              simp [applyConfigWindows, applyConfigLinux, applyConfigCommon, configGet, asStr,
                lookUpMode, hD, hM, hmv, hR, hP, bindE_ok, bindE_err, pureE]
          | some polV =>
            have hpv := hres "ADCpolarity" polV hP
            cases polV with
            | num q => simp [resolvableVal] at hpv
            | str ps =>
              cases hDO : c "DOutPort" with
              | none =>
                have hkk : "DOutPort" = k := by
                  simpa [firstMissingKey, requiredKeys, List.find?, hD, hM, hR, hP, hDO] using hk
                subst hkk
                refine ⟨?_, fun _ => ?_, fun hx => absurd hx (by decide)⟩ <;>
                  simp [applyConfigWindows, applyConfigLinux, applyConfigCommon, configGet, asStr,
                    lookUpMode, hD, hM, hmv, hR, hP, hDO, bindE_ok, bindE_err, pureE]
              | some doV =>
                have hdov := hres "DOutPort" doV hDO
                cases doV with
                | num q => simp [resolvableVal] at hdov
                | str ds =>
                  simp [resolvableVal] at hdov
                  cases hDI : c "DInPort" with
                  | none =>
                    have hkk : "DInPort" = k := by
                      simpa [firstMissingKey, requiredKeys, List.find?, hD, hM, hR, hP, hDO, hDI]
                        using hk
                    subst hkk
                    refine ⟨?_, fun _ => ?_, fun hx => absurd hx (by decide)⟩ <;>
                      simp [applyConfigWindows, applyConfigLinux, applyConfigCommon, configGet,
                        asStr, lookUpMode, lookUpDioPort, hD, hM, hmv, hR, hP, hDO, hdov, hDI,
                        bindE_ok, bindE_err, pureE]
                  | some diV =>
                    have hdiv := hres "DInPort" diV hDI
                    cases diV with
                    | num q => simp [resolvableVal] at hdiv
                    | str dis =>
                      simp [resolvableVal] at hdiv
                      cases hS : c "sleep_time" with
                      | none =>
                        have hkk : "sleep_time" = k := by
                          simpa [firstMissingKey, requiredKeys, List.find?, hD, hM, hR, hP, hDO,
                            hDI, hS] using hk
                        subst hkk
                        refine ⟨?_, fun hx => absurd rfl hx, fun _ => ?_⟩ <;>
                          simp [applyConfigWindows, applyConfigLinux, applyConfigCommon, configGet,
                            configCall, asStr, lookUpMode, lookUpDioPort, hD, hM, hmv, hR, hP,
                            hDO, hdov, hDI, hdiv, hS, bindE_ok, bindE_err, pureE]
                      | some sv =>
                        simp [firstMissingKey, requiredKeys, List.find?, hD, hM, hR, hP, hDO,
                          hDI, hS] at hk

/-- C8 witness: a configuration missing only the ADC mode fails both
variants' config application with a `KeyError` naming `ADCmode`. -/
theorem C8_missing_key_witness :
    applyConfigWindows modeTableEx portTableEx rangeTableEx cfgMissingMode =
      .error (.keyError "ADCmode") ∧
    applyConfigLinux modeTableEx portTableEx rangeTableEx cfgMissingMode =
      .error (.keyError "ADCmode") := by
  have h := C8_missing_key modeTableEx portTableEx rangeTableEx cfgMissingMode "ADCmode"
    (by
      intro kk v hv
      revert hv
      unfold cfgMissingMode
      split_ifs with h1 h2 h3 h4 h5 h6 <;> intro hv <;> subst_vars <;> cases hv <;> decide)
    (by decide)
  exact ⟨h.1, h.2.1 (by decide)⟩

/-- C9: the Linux `_apply_config` reads the poll interval by calling the
config mapping (`self.config("sleep_time")`), so for any configuration —
in particular any plain non-callable mapping — it never returns
successfully: whenever all preceding lookups succeed (equivalently,
whenever the Windows variant would succeed on the same tables and
configuration), it fails with `TypeError` at the poll-interval step.
Since `set_config` calls `_apply_config` and `DAQ.__init__` calls
`set_config`, neither completes without raising. -/
theorem C9_linux_apply_always_raises (mt pt : List String) (rt : List RangeDesc) (c : Config) :
    (∀ a, applyConfigLinux mt pt rt c ≠ .ok a) ∧
    (isOkE (applyConfigWindows mt pt rt c) = true →
      applyConfigLinux mt pt rt c = .error .typeError) := by
  constructor
  · intro a h
    simp only [applyConfigLinux] at h
    cases hco : applyConfigCommon mt pt rt c with
    | error e =>
      rw [hco] at h
      exact Except.noConfusion h
    | ok p =>
      rw [hco] at h
      exact Except.noConfusion h
  · intro h
    simp only [applyConfigWindows] at h
    cases hco : applyConfigCommon mt pt rt c with
    | error e =>
      rw [hco] at h
      exact Bool.noConfusion h
    | ok p =>
      simp only [applyConfigLinux]
      rw [hco]
      rfl

/-- C9 witness: on a full, resolvable configuration the Windows variant
succeeds, and the Linux variant fails with `TypeError`. -/
theorem C9_linux_apply_always_raises_witness :
    applyConfigLinux modeTableEx portTableEx rangeTableEx cfgFull = .error .typeError :=
  (C9_linux_apply_always_raises modeTableEx portTableEx rangeTableEx cfgFull).2 (by decide)

end PythonMccdaq
